import Mathlib

/-!
Shallow embedding of the Sentiment-Text-Analyzer service.

The embedding follows the Python sources:
  src/models.py     pydantic data model (SentimentLabel, SentimentResult, AnalysisResponse)
  src/services.py   SentimentAnalysisService.analyze_sentiment
  src/cache.py      RedisCache (get / set / delete / health_check / clear_cache)
  src/main.py       generate_cache_key and the POST /analyze handler

External collaborators (the redis client, the json library, the LLM chain,
the clock) are modelled as explicit parameters: a redis client is a record of
state-passing response functions, the outcome of the LLM chain invocation is a
parameter of the service call, and wall-clock readings are rational parameters.
MD5 (hashlib.md5) is implemented in full so that generate_cache_key is the
actual key-derivation function of the program.
-/

namespace STA

/-! Python values, as produced by json parsing or by the JsonOutputParser. -/

inductive PyVal where
  | pyNone
  | pyBool (b : Bool)
  | pyNum (q : ℚ)
  | pyStr (s : String)
  | pyList (xs : List PyVal)
  | pyDict (kvs : List (String × PyVal))

def pyLookup (kvs : List (String × PyVal)) (k : String) : Option PyVal :=
  match kvs with
  | [] => none
  | (k2, v) :: rest => if k2 = k then some v else pyLookup rest k

/-! Data model, from src/models.py. -/

inductive SentimentLabel where
  | positive
  | negative
  | neutral
  | mixed
deriving Repr, DecidableEq

def SentimentLabel.ofString (s : String) : Option SentimentLabel :=
  if s = "positive" then some .positive
  else if s = "negative" then some .negative
  else if s = "neutral" then some .neutral
  else if s = "mixed" then some .mixed
  else none

structure SentimentResult where
  label : SentimentLabel
  confidence : ℚ
  explanation : Option String
deriving Repr, DecidableEq

/-- Validation of the label field: a SentimentLabel is a StrEnum, so the value
must be one of the four enumeration strings. -/
def validateLabel (v : Option PyVal) : Except String SentimentLabel :=
  match v with
  | some (.pyStr s) =>
    match SentimentLabel.ofString s with
    | some l => .ok l
    | none => .error "label: input should be positive, negative, neutral or mixed"
  | some _ => .error "label: input should be a valid string"
  | none => .error "label: field required"

/-- Validation of the confidence field: Field ge 0.0 le 1.0 in src/models.py. -/
def validateConfidence (v : Option PyVal) : Except String ℚ :=
  match v with
  | some (.pyNum q) =>
    if q < 0 then .error "confidence: input should be greater than or equal to 0"
    else if 1 < q then .error "confidence: input should be less than or equal to 1"
    else .ok q
  | some _ => .error "confidence: input should be a valid number"
  | none => .error "confidence: field required"

/-- Validation of the explanation field: declared as str or None, defaulting
to None when absent. -/
def validateExplanation (v : Option PyVal) : Except String (Option String) :=
  match v with
  | some (.pyStr s) => .ok (some s)
  | some .pyNone => .ok none
  | some _ => .error "explanation: input should be a valid string"
  | none => .ok none

def errListOf {α : Type} (r : Except String α) : List String :=
  match r with
  | .ok _ => []
  | .error e => [e]

/-- Pydantic model validation for SentimentResult: the input must be a
dictionary whose label, confidence and explanation fields validate; on any
field failure a ValidationError carrying the accumulated field errors is
raised (modelled as the error branch). -/
def SentimentResult.model_validate (v : PyVal) : Except (List String) SentimentResult :=
  match v with
  | .pyDict kvs =>
    match validateLabel (pyLookup kvs "label"),
          validateConfidence (pyLookup kvs "confidence"),
          validateExplanation (pyLookup kvs "explanation") with
    | .ok l, .ok c, .ok e => .ok ⟨l, c, e⟩
    | rl, rc, re => .error (errListOf rl ++ errListOf rc ++ errListOf re)
  | _ => .error ["input should be a valid dictionary"]

/-! Sentiment backend client, from src/services.py. The chain
prompt then llm then parser runs outside the program; its outcome, as observed at
the await inside analyze_sentiment, is one of four cases. -/

/-- Outcome of awaiting asyncio.wait_for on the LLM chain:
the JsonOutputParser produced a Python value, or it raised
OutputParserException, or the timeout elapsed (asyncio.TimeoutError), or some
other exception was raised. -/
inductive ChainOutcome where
  | parsed (v : PyVal)
  | outputParseFailure
  | timedOut
  | raised (msg : String)

/-- Failure channel of SentimentAnalysisService.analyze_sentiment: it raises
TimeoutError, or SentimentAnalysisError with a message and a details dict.
The uncaughtValidation case models a ValidationError escaping from the
OutputParserException handler; it is provably unreachable. -/
inductive ServiceError where
  | timeoutError (msg : String)
  | sentimentAnalysisError (message : String) (details : PyVal)
  | uncaughtValidation (errs : List String)

/-- The canonical fallback dictionary from the except OutputParserException
branch of src/services.py. -/
def fallbackDict : PyVal :=
  .pyDict [("label", .pyStr "neutral"), ("confidence", .pyNum 0),
           ("explanation", .pyStr "Unable to determine sentiment")]

namespace SentimentAnalysisService

/-- Embedding of SentimentAnalysisService.analyze_sentiment from
src/services.py, as a function of the chain invocation outcome. -/
def analyze_sentiment (chain : ChainOutcome) : Except ServiceError SentimentResult :=
  match chain with
  | .parsed v =>
    match SentimentResult.model_validate v with
    | .ok r => .ok r
    | .error errs =>
      .error (.sentimentAnalysisError "Invalid response format from LLM"
        (.pyDict [("validation_errors", .pyList (errs.map .pyStr))]))
  | .outputParseFailure =>
    match SentimentResult.model_validate fallbackDict with
    | .ok r => .ok r
    | .error errs => .error (.uncaughtValidation errs)
  | .timedOut => .error (.timeoutError "Sentiment analysis request timed out")
  | .raised msg =>
    .error (.sentimentAnalysisError "Unexpected error during sentiment analysis"
      (.pyDict [("error", .pyStr msg)]))

end SentimentAnalysisService

/-! Cache store, from src/cache.py. The redis.asyncio client is an external
collaborator: it is modelled as a record of state-passing response functions
over an abstract state S, every call either returning a value or raising. -/

/-- A raised Python exception, as observed by an except clause. -/
inductive PyErr where
  | exc (msg : String)

/-- One network call issued to the redis client. Traces of these events record
which I/O a cache operation performed. -/
inductive StoreEvent where
  | getCall (key : String)
  | setexCall (key : String) (ttl : Nat) (value : String)
  | deleteCall (key : String)
  | pingCall
  | flushdbCall

/-- The external redis client: each operation consumes a state and returns a
response (or a raised exception) together with the successor state. -/
structure RedisClient (S : Type) where
  get : S → String → Except PyErr (Option String) × S
  setex : S → String → Nat → String → Except PyErr Unit × S
  delete : S → String → Except PyErr Nat × S
  ping : S → Except PyErr Unit × S
  flushdb : S → Except PyErr Unit × S

/-- Configuration of a RedisCache instance, together with the json library
used by it: loads deserializes a stored string, dumps serializes a value. -/
structure RedisCache (V : Type) where
  ttl : Nat
  cache_enabled : Bool
  loads : String → Except PyErr V
  dumps : V → String

/-- Python integer-or-None coalescing ttl or self.ttl from RedisCache.set:
None and 0 are both falsy, so both select the default. -/
def py_or_int (ttl : Option Nat) (d : Nat) : Nat :=
  match ttl with
  | none => d
  | some t => if t = 0 then d else t

namespace RedisCache

/-- Embedding of RedisCache.get: short-circuits when caching is disabled,
returns None when the client raises, when the key is absent, when the stored
string is empty (falsy), or when json.loads raises. -/
def get {V S : Type} (c : RedisCache V) (cl : RedisClient S) (s : S) (key : String) :
    Option V × S × List StoreEvent :=
  if !c.cache_enabled then (none, s, [])
  else
    match cl.get s key with
    | (.error _, s2) => (none, s2, [.getCall key])
    | (.ok none, s2) => (none, s2, [.getCall key])
    | (.ok (some data), s2) =>
      if data = "" then (none, s2, [.getCall key])
      else
        match c.loads data with
        | .ok v => (some v, s2, [.getCall key])
        | .error _ => (none, s2, [.getCall key])

/-- Embedding of RedisCache.set: short-circuits when caching is disabled,
computes actual_ttl as ttl or self.ttl, serializes, issues setex, and
returns False when the client raises. -/
def set {V S : Type} (c : RedisCache V) (cl : RedisClient S) (s : S)
    (key : String) (value : V) (ttl : Option Nat) : Bool × S × List StoreEvent :=
  if !c.cache_enabled then (false, s, [])
  else
    let actual_ttl := py_or_int ttl c.ttl
    let serialized_value := c.dumps value
    match cl.setex s key actual_ttl serialized_value with
    | (.ok _, s2) => (true, s2, [.setexCall key actual_ttl serialized_value])
    | (.error _, s2) => (false, s2, [.setexCall key actual_ttl serialized_value])

/-- Embedding of RedisCache.delete: no cache_enabled check; returns
bool(result) where result is the number of deleted keys. -/
def delete {V S : Type} (_c : RedisCache V) (cl : RedisClient S) (s : S) (key : String) :
    Bool × S × List StoreEvent :=
  match cl.delete s key with
  | (.ok n, s2) => (decide (n ≠ 0), s2, [.deleteCall key])
  | (.error _, s2) => (false, s2, [.deleteCall key])

/-- Embedding of RedisCache.health_check: pings the client, no
cache_enabled check. -/
def health_check {V S : Type} (_c : RedisCache V) (cl : RedisClient S) (s : S) :
    Bool × S × List StoreEvent :=
  match cl.ping s with
  | (.ok _, s2) => (true, s2, [.pingCall])
  | (.error _, s2) => (false, s2, [.pingCall])

/-- Embedding of RedisCache.clear_cache: flushes the whole database, no
cache_enabled check. -/
def clear_cache {V S : Type} (_c : RedisCache V) (cl : RedisClient S) (s : S) :
    Bool × S × List StoreEvent :=
  match cl.flushdb s with
  | (.ok _, s2) => (true, s2, [.flushdbCall])
  | (.error _, s2) => (false, s2, [.flushdbCall])

end RedisCache

/-! Key derivation, from src/main.py: generate_cache_key is
hashlib.md5 applied to the utf-8 encoding of the text, as a hex digest.
MD5 is implemented in full (RFC 1321) over Nat with explicit reduction
modulo 2 to the 32. -/

def w32 : Nat := 4294967296

/-- Encoding of one character as utf-8 bytes, as str.encode does. -/
def utf8EncodeChar (c : Char) : List Nat :=
  let n := c.toNat
  if n < 128 then [n]
  else if n < 2048 then
    [192 ||| (n >>> 6), 128 ||| (n &&& 63)]
  else if n < 65536 then
    [224 ||| (n >>> 12), 128 ||| ((n >>> 6) &&& 63), 128 ||| (n &&& 63)]
  else
    [240 ||| (n >>> 18), 128 ||| ((n >>> 12) &&& 63),
     128 ||| ((n >>> 6) &&& 63), 128 ||| (n &&& 63)]

/-- The utf-8 byte sequence of a string, as text.encode utf-8 does. -/
def utf8Encode (s : String) : List Nat :=
  s.data.flatMap utf8EncodeChar

/-- Per-round left-rotation amounts of MD5. -/
def md5Shift : List Nat :=
  [7, 12, 17, 22, 7, 12, 17, 22, 7, 12, 17, 22, 7, 12, 17, 22,
   5, 9, 14, 20, 5, 9, 14, 20, 5, 9, 14, 20, 5, 9, 14, 20,
   4, 11, 16, 23, 4, 11, 16, 23, 4, 11, 16, 23, 4, 11, 16, 23,
   6, 10, 15, 21, 6, 10, 15, 21, 6, 10, 15, 21, 6, 10, 15, 21]

/-- Per-round additive constants of MD5. -/
def md5K : List Nat :=
  [0xd76aa478, 0xe8c7b756, 0x242070db, 0xc1bdceee,
   0xf57c0faf, 0x4787c62a, 0xa8304613, 0xfd469501,
   0x698098d8, 0x8b44f7af, 0xffff5bb1, 0x895cd7be,
   0x6b901122, 0xfd987193, 0xa679438e, 0x49b40821,
   0xf61e2562, 0xc040b340, 0x265e5a51, 0xe9b6c7aa,
   0xd62f105d, 0x02441453, 0xd8a1e681, 0xe7d3fbc8,
   0x21e1cde6, 0xc33707d6, 0xf4d50d87, 0x455a14ed,
   0xa9e3e905, 0xfcefa3f8, 0x676f02d9, 0x8d2a4c8a,
   0xfffa3942, 0x8771f681, 0x6d9d6122, 0xfde5380c,
   0xa4beea44, 0x4bdecfa9, 0xf6bb4b60, 0xbebfbc70,
   0x289b7ec6, 0xeaa127fa, 0xd4ef3085, 0x04881d05,
   0xd9d4d039, 0xe6db99e5, 0x1fa27cf8, 0xc4ac5665,
   0xf4292244, 0x432aff97, 0xab9423a7, 0xfc93a039,
   0x655b59c3, 0x8f0ccc92, 0xffeff47d, 0x85845dd1,
   0x6fa87e4f, 0xfe2ce6e0, 0xa3014314, 0x4e0811a1,
   0xf7537e82, 0xbd3af235, 0x2ad7d2bb, 0xeb86d391]

/-- Left rotation of a 32-bit word. -/
def rotl32 (x s : Nat) : Nat :=
  ((x <<< s) ||| (x >>> (32 - s))) % w32

/-- Little-endian 32-bit word number i of a 64-byte chunk. -/
def leWord (m : List Nat) (i : Nat) : Nat :=
  m.getD (4 * i) 0 + 256 * m.getD (4 * i + 1) 0 +
    65536 * m.getD (4 * i + 2) 0 + 16777216 * m.getD (4 * i + 3) 0

/-- One MD5 round on the running state (a, b, c, d). -/
def md5Round (m : List Nat) (st : Nat × Nat × Nat × Nat) (i : Nat) :
    Nat × Nat × Nat × Nat :=
  let (a, b, c, d) := st
  let f :=
    if i < 16 then (b &&& c) ||| ((b ^^^ 0xffffffff) &&& d)
    else if i < 32 then (d &&& b) ||| ((d ^^^ 0xffffffff) &&& c)
    else if i < 48 then b ^^^ c ^^^ d
    else c ^^^ (b ||| (d ^^^ 0xffffffff))
  let g :=
    if i < 16 then i
    else if i < 32 then (5 * i + 1) % 16
    else if i < 48 then (3 * i + 5) % 16
    else (7 * i) % 16
  let f2 := (f + a + md5K.getD i 0 + leWord m g) % w32
  (d, (b + rotl32 f2 (md5Shift.getD i 0)) % w32, b, c)

/-- Processing of one 64-byte chunk. -/
def md5Chunk (st : Nat × Nat × Nat × Nat) (m : List Nat) : Nat × Nat × Nat × Nat :=
  let (a0, b0, c0, d0) := st
  let (a, b, c, d) := (List.range 64).foldl (md5Round m) st
  ((a0 + a) % w32, (b0 + b) % w32, (c0 + c) % w32, (d0 + d) % w32)

/-- MD5 padding: append the byte 0x80, zero bytes up to 56 modulo 64, and
the bit length as a little-endian 64-bit quantity. -/
def md5Pad (msg : List Nat) : List Nat :=
  let len := msg.length
  let zeros := (119 - len % 64) % 64
  let bitLen := (8 * len) % 18446744073709551616
  msg ++ [128] ++ List.replicate zeros 0 ++
    (List.range 8).map (fun i => (bitLen >>> (8 * i)) % 256)

/-- The four MD5 state words of a byte message. -/
def md5Words (msg : List Nat) : Nat × Nat × Nat × Nat :=
  let padded := md5Pad msg
  (List.range (padded.length / 64)).foldl
    (fun st i => md5Chunk st ((padded.drop (64 * i)).take 64))
    (0x67452301, 0xefcdab89, 0x98badcfe, 0x10325476)

def hexDigit (n : Nat) : Char :=
  "0123456789abcdef".toList.getD n '0'

/-- Two lowercase hex characters of one byte. -/
def byteHex (b : Nat) : List Char :=
  [hexDigit (b / 16 % 16), hexDigit (b % 16)]

/-- The four little-endian bytes of a 32-bit word. -/
def wordLEBytes (w : Nat) : List Nat :=
  [w % 256, w / 256 % 256, w / 65536 % 256, w / 16777216 % 256]

/-- The MD5 hex digest of a byte message, as hashlib hexdigest returns it. -/
def md5hex (msg : List Nat) : String :=
  match md5Words msg with
  | (a, b, c, d) =>
    String.mk ((wordLEBytes a ++ wordLEBytes b ++ wordLEBytes c ++ wordLEBytes d).flatMap byteHex)

/-- Embedding of generate_cache_key from src/main.py:
hashlib.md5 of the utf-8 encoded text, as a hex digest. -/
def generate_cache_key (text : String) : String :=
  md5hex (utf8Encode text)

/-! Request pipeline, from src/main.py: the POST /analyze handler. -/

/-- The dictionary written to the cache by the handler: response_data at the
moment of the cache.set call holds exactly the text, the sentiment and
model_used (the cached=False, processing_time and timestamp keys are added
only after the write). -/
structure CachePayload where
  text : String
  sentiment : SentimentResult
  model_used : String
deriving Repr, DecidableEq

/-- The AnalysisResponse model from src/models.py, as returned by the
handler (which always supplies every field). -/
structure AnalysisResponse where
  text : String
  sentiment : SentimentResult
  cached : Bool
  processing_time : ℚ
  model_used : Option String
  timestamp : ℚ
deriving Repr, DecidableEq

/-- Pipeline-level observable actions of one request. -/
inductive PipeEvent where
  | cacheGet (key : String)
  | backendCall (text : String)
  | cacheSet (key : String) (value : CachePayload)
deriving Repr, DecidableEq

def isBackendCallEvent : PipeEvent → Bool
  | .backendCall _ => true
  | _ => false

def isCacheSetEvent : PipeEvent → Bool
  | .cacheSet _ _ => true
  | _ => false

/-- Embedding of the analyze_sentiment handler of src/main.py. Parameters
beyond the request text are the injected environment: ollama_model is
settings.ollama.model, cache and cl the RedisCache with its client, chain the
outcome of the LLM chain on this request, t_start and t_end the two
time.time readings and ts the datetime.now reading. -/
def analyze_sentiment_endpoint {S : Type} (ollama_model : String)
    (cache : RedisCache CachePayload) (cl : RedisClient S) (chain : ChainOutcome)
    (t_start t_end ts : ℚ) (s : S) (text : String) :
    Except ServiceError AnalysisResponse × S × List PipeEvent :=
  let cache_key := generate_cache_key text
  match RedisCache.get cache cl s cache_key with
  | (some cached_result, s2, _) =>
    (.ok { text := cached_result.text, sentiment := cached_result.sentiment,
           cached := true, processing_time := t_end - t_start,
           model_used := some cached_result.model_used, timestamp := ts },
     s2, [.cacheGet cache_key])
  | (none, s2, _) =>
    match SentimentAnalysisService.analyze_sentiment chain with
    | .ok sentiment_result =>
      let response_data : CachePayload :=
        { text := text, sentiment := sentiment_result, model_used := ollama_model }
      (.ok { text := text, sentiment := sentiment_result, cached := false,
             processing_time := t_end - t_start, model_used := some ollama_model,
             timestamp := ts },
       (RedisCache.set cache cl s2 cache_key response_data none).2.1,
       [.cacheGet cache_key, .backendCall text, .cacheSet cache_key response_data])
    | .error e =>
      (.error e, s2, [.cacheGet cache_key, .backendCall text])

/-! A faithful functional model of the external redis store itself, used to
run the pipeline end to end: entries carry an absolute expiry instant, get
hides expired entries, setex stores with expiry now plus ttl. -/

abbrev RedisDB : Type := List (String × String × ℚ)

def dbGet (db : RedisDB) (k : String) : Option (String × ℚ) :=
  match db with
  | [] => none
  | (k2, v, e) :: rest => if k2 = k then some (v, e) else dbGet rest k

def dbSet (db : RedisDB) (k v : String) (e : ℚ) : RedisDB :=
  match db with
  | [] => [(k, v, e)]
  | (k2, v2, e2) :: rest =>
    if k2 = k then (k, v, e) :: rest else (k2, v2, e2) :: dbSet rest k v e

def dbDelete (db : RedisDB) (k : String) : RedisDB :=
  match db with
  | [] => []
  | (k2, v2, e2) :: rest =>
    if k2 = k then dbDelete rest k else (k2, v2, e2) :: dbDelete rest k

/-- The redis client running against the functional store model, all calls
succeeding, observed at instant now. -/
def redisModel (now : ℚ) : RedisClient RedisDB where
  get := fun db k =>
    (.ok (match dbGet db k with
          | some (v, e) => if now < e then some v else none
          | none => none), db)
  setex := fun db k ttl v => (.ok (), dbSet db k v (now + ttl))
  delete := fun db k =>
    (.ok (match dbGet db k with | some _ => 1 | none => 0), dbDelete db k)
  ping := fun db => (.ok (), db)
  flushdb := fun _ => (.ok (), [])

/-! Concrete fixtures used to instantiate the general statements. -/

/-- The judgment produced by validating the canonical fallback dictionary. -/
def fallbackResult : SentimentResult :=
  ⟨.neutral, 0, some "Unable to determine sentiment"⟩

/-- The payload cached for the text hi by a fresh fallback analysis under
model llama3. -/
def fixturePayload : CachePayload := ⟨"hi", fallbackResult, "llama3"⟩

/-- A cache configuration whose json codec round-trips fixturePayload. -/
def fixtureCache : RedisCache CachePayload :=
  { ttl := 3600, cache_enabled := true,
    loads := fun s => if s = "payload" then .ok fixturePayload else .error (.exc "json decode error"),
    dumps := fun _ => "payload" }

/-- The same configuration with caching administratively disabled. -/
def disabledCache : RedisCache CachePayload :=
  { fixtureCache with cache_enabled := false }

/-- A redis client every call of which raises. -/
def failingClient : RedisClient Unit :=
  { get := fun s _ => (.error (.exc "connection refused"), s),
    setex := fun s _ _ _ => (.error (.exc "connection refused"), s),
    delete := fun s _ => (.error (.exc "connection refused"), s),
    ping := fun s => (.error (.exc "connection refused"), s),
    flushdb := fun s => (.error (.exc "connection refused"), s) }

/-- A store state holding an unexpired entry for the key of the text hi. -/
def seededDB : RedisDB := [(generate_cache_key "hi", "payload", 10)]

/-- A backend reply that parses as JSON but has confidence out of range. -/
def badConfidenceDict : PyVal :=
  .pyDict [("label", .pyStr "positive"), ("confidence", .pyNum 2)]

/-! Theorems. Helper lemmas come first; the claim theorems follow. -/

/-- The hex digest of MD5 always has exactly 32 characters, whatever the
four final state words are. -/
theorem md5hex_length (msg : List Nat) : (md5hex msg).length = 32 := by
  unfold md5hex
  rcases md5Words msg with ⟨a, b, c, d⟩
  simp [wordLEBytes, byteHex, String.length]

/-- C7: key derivation is a pure deterministic function of the raw text:
repeated calls agree, the key always has the fixed length 32, and no case
normalization or trimming happens (uppercasing, leading or trailing blanks
change the key); as a total function it never fails. -/
theorem C7_generate_cache_key_deterministic_fixed_length :
    (∀ t : String, generate_cache_key t = generate_cache_key t) ∧
    (∀ t : String, (generate_cache_key t).length = 32) ∧
    generate_cache_key "A" ≠ generate_cache_key "a" ∧
    generate_cache_key " a" ≠ generate_cache_key "a" ∧
    generate_cache_key "a " ≠ generate_cache_key "a" := by
  refine ⟨fun _ => rfl, fun t => md5hex_length (utf8Encode t), ?_, ?_, ?_⟩ <;> decide

/-- C5: RedisCache.get reports absent and RedisCache.set reports failure,
without raising, whenever caching is disabled or the underlying client call
raises; when caching is disabled both short-circuit with no store call at
all and an unchanged state. -/
theorem C5_cache_get_set_degrade_gracefully {V S : Type} (c : RedisCache V)
    (cl : RedisClient S) (s : S) (key : String) (value : V) (ttl : Option Nat) :
    ((c.cache_enabled = false ∨ ∃ e s2, cl.get s key = (.error e, s2)) →
      (RedisCache.get c cl s key).1 = none) ∧
    ((c.cache_enabled = false ∨
        ∃ e s2, cl.setex s key (py_or_int ttl c.ttl) (c.dumps value) = (.error e, s2)) →
      (RedisCache.set c cl s key value ttl).1 = false) ∧
    (c.cache_enabled = false →
      RedisCache.get c cl s key = (none, s, []) ∧
      RedisCache.set c cl s key value ttl = (false, s, [])) := by
  refine ⟨?_, ?_, fun hd => ⟨by simp [RedisCache.get, hd], by simp [RedisCache.set, hd]⟩⟩
  · rintro (hd | ⟨e, s2, he⟩)
    · simp [RedisCache.get, hd]
    · by_cases hd : c.cache_enabled = true
      · simp [RedisCache.get, hd, he]
      · simp [RedisCache.get, hd]
  · rintro (hd | ⟨e, s2, he⟩)
    · simp [RedisCache.set, hd]
    · by_cases hd : c.cache_enabled = true
      · simp [RedisCache.set, hd, he]
      · simp [RedisCache.set, hd]

/-- Witness for C5: with caching enabled and a client whose calls raise, get
reports absent and set reports failure; with caching disabled both
short-circuit without touching the client. -/
theorem C5_cache_get_set_degrade_gracefully_witness :
    (RedisCache.get fixtureCache failingClient () "k").1 = none ∧
    (RedisCache.set fixtureCache failingClient () "k" fixturePayload none).1 = false ∧
    RedisCache.get disabledCache failingClient () "k" = (none, (), []) ∧
    RedisCache.set disabledCache failingClient () "k" fixturePayload none = (false, (), []) := by
  have h1 := C5_cache_get_set_degrade_gracefully fixtureCache failingClient () "k"
    fixturePayload none
  have h2 := C5_cache_get_set_degrade_gracefully disabledCache failingClient () "k"
    fixturePayload none
  exact ⟨h1.1 (Or.inr ⟨.exc "connection refused", (), rfl⟩),
         h1.2.1 (Or.inr ⟨.exc "connection refused", (), rfl⟩),
         (h2.2.2 rfl).1, (h2.2.2 rfl).2⟩

/-- C9: calling set with an explicit time-to-live of 0 behaves exactly as if
no ttl had been supplied: 0 is falsy in the expression ttl or self.ttl, so
the configured default replaces it and no immediately-expiring or unexpiring
entry is stored. -/
theorem C9_set_ttl_zero_uses_default {V S : Type} (c : RedisCache V) (cl : RedisClient S)
    (s : S) (key : String) (value : V) :
    RedisCache.set c cl s key value (some 0) = RedisCache.set c cl s key value none := rfl

/-- C10: the disabled flag gates only get and set: delete, health_check and
clear_cache still issue their store call when caching is disabled, and
delete can still return true in that state. -/
theorem C10_delete_health_clear_ignore_disabled_flag {V S : Type} (c : RedisCache V)
    (cl : RedisClient S) (s : S) (key : String) (_h : c.cache_enabled = false) :
    (RedisCache.delete c cl s key).2.2 = [.deleteCall key] ∧
    (RedisCache.health_check c cl s).2.2 = [.pingCall] ∧
    (RedisCache.clear_cache c cl s).2.2 = [.flushdbCall] ∧
    (∀ s2, cl.delete s key = (.ok 1, s2) → (RedisCache.delete c cl s key).1 = true) := by
  refine ⟨?_, ?_, ?_, ?_⟩
  · rcases hcl : cl.delete s key with ⟨r, s2⟩
    cases r <;> simp [RedisCache.delete, hcl]
  · rcases hcl : cl.ping s with ⟨r, s2⟩
    cases r <;> simp [RedisCache.health_check, hcl]
  · rcases hcl : cl.flushdb s with ⟨r, s2⟩
    cases r <;> simp [RedisCache.clear_cache, hcl]
  · intro s2 h2
    simp [RedisCache.delete, h2]

/-- Witness for C10: deleting the seeded key with caching disabled still
issues the store call and returns true. -/
theorem C10_delete_health_clear_ignore_disabled_flag_witness :
    (RedisCache.delete disabledCache (redisModel 0) seededDB (generate_cache_key "hi")).2.2 =
      [.deleteCall (generate_cache_key "hi")] ∧
    (RedisCache.delete disabledCache (redisModel 0) seededDB (generate_cache_key "hi")).1 =
      true := by
  have h := C10_delete_health_clear_ignore_disabled_flag disabledCache (redisModel 0)
    seededDB (generate_cache_key "hi") rfl
  exact ⟨h.1, h.2.2.2 (dbDelete seededDB (generate_cache_key "hi")) rfl⟩

/-- A confidence accepted by field validation lies between 0 and 1. -/
theorem validateConfidence_ok_bounds (ov : Option PyVal) (q : ℚ)
    (h : validateConfidence ov = .ok q) : 0 ≤ q ∧ q ≤ 1 := by
  rcases ov with _ | v
  · simp [validateConfidence] at h
  · cases v <;> simp [validateConfidence] at h
    case pyNum x =>
      split_ifs at h with h1 h2
      rcases h with ⟨rfl⟩
      exact ⟨not_lt.mp h1, not_lt.mp h2⟩

/-- C8: every SentimentResult obtained through model validation satisfies the
data-model invariant: the label is one of the four enumeration values and the
confidence lies between 0 and 1; by contraposition, any backend reply or
cached entry violating the bounds is rejected with a validation error. -/
theorem C8_sentiment_result_invariant (v : PyVal) (r : SentimentResult)
    (h : SentimentResult.model_validate v = .ok r) :
    (r.label = .positive ∨ r.label = .negative ∨ r.label = .neutral ∨ r.label = .mixed) ∧
    0 ≤ r.confidence ∧ r.confidence ≤ 1 := by
  refine ⟨by cases hr : r.label <;> simp, ?_⟩
  cases v <;> simp [SentimentResult.model_validate] at h
  case pyDict kvs =>
    rcases hl : validateLabel (pyLookup kvs "label") with el | l <;>
      rcases hc : validateConfidence (pyLookup kvs "confidence") with ec | cq <;>
      rcases he : validateExplanation (pyLookup kvs "explanation") with ee | ex <;>
      simp [hl, hc, he] at h
    rcases h with ⟨rfl⟩
    exact validateConfidence_ok_bounds _ _ hc

/-- Witness for C8 at the canonical fallback dictionary. -/
theorem C8_sentiment_result_invariant_witness :
    (fallbackResult.label = .positive ∨ fallbackResult.label = .negative ∨
      fallbackResult.label = .neutral ∨ fallbackResult.label = .mixed) ∧
    0 ≤ fallbackResult.confidence ∧ fallbackResult.confidence ≤ 1 :=
  C8_sentiment_result_invariant fallbackDict fallbackResult (by rfl)

/-- C2: the backend client keeps the three failure modes apart: an
unparseable reply becomes the canonical fallback judgment and the call
succeeds; a timeout is raised as a TimeoutError; a schema-invalid parsed
reply, and any other unexpected fault, are raised as a
SentimentAnalysisError carrying details, a kind distinct from the timeout. -/
theorem C2_service_three_way_distinction (v : PyVal) (errs : List String) (msg : String)
    (hv : SentimentResult.model_validate v = .error errs) :
    SentimentAnalysisService.analyze_sentiment .outputParseFailure = .ok fallbackResult ∧
    fallbackResult = ⟨.neutral, 0, some "Unable to determine sentiment"⟩ ∧
    SentimentAnalysisService.analyze_sentiment .timedOut =
      .error (.timeoutError "Sentiment analysis request timed out") ∧
    SentimentAnalysisService.analyze_sentiment (.parsed v) =
      .error (.sentimentAnalysisError "Invalid response format from LLM"
        (.pyDict [("validation_errors", .pyList (errs.map .pyStr))])) ∧
    SentimentAnalysisService.analyze_sentiment (.raised msg) =
      .error (.sentimentAnalysisError "Unexpected error during sentiment analysis"
        (.pyDict [("error", .pyStr msg)])) ∧
    (∀ m d tm, ServiceError.sentimentAnalysisError m d ≠ .timeoutError tm) := by
  refine ⟨rfl, rfl, rfl, ?_, rfl, fun m d tm hne => ServiceError.noConfusion hne⟩
  simp [SentimentAnalysisService.analyze_sentiment, hv]

/-- Witness for C2: a parsed reply with confidence 2 is rejected as a
structured analysis failure, while an unparseable reply falls back. -/
theorem C2_service_three_way_distinction_witness :
    SentimentAnalysisService.analyze_sentiment (.parsed badConfidenceDict) =
      .error (.sentimentAnalysisError "Invalid response format from LLM"
        (.pyDict [("validation_errors",
          .pyList [.pyStr "confidence: input should be less than or equal to 1"])])) ∧
    SentimentAnalysisService.analyze_sentiment .outputParseFailure = .ok fallbackResult := by
  have h := C2_service_three_way_distinction badConfidenceDict
    ["confidence: input should be less than or equal to 1"] "x" (by rfl)
  exact ⟨h.2.2.2.1, h.1⟩

/-- Unfolding of the handler on a cache hit. -/
theorem endpoint_hit_eq {S : Type} (ollama_model : String) (cache : RedisCache CachePayload)
    (cl : RedisClient S) (chain : ChainOutcome) (t0 t1 ts : ℚ) (s : S) (text : String)
    (p : CachePayload) (s2 : S) (tr : List StoreEvent)
    (h : RedisCache.get cache cl s (generate_cache_key text) = (some p, s2, tr)) :
    analyze_sentiment_endpoint ollama_model cache cl chain t0 t1 ts s text =
      (.ok { text := p.text, sentiment := p.sentiment, cached := true,
             processing_time := t1 - t0, model_used := some p.model_used, timestamp := ts },
       s2, [.cacheGet (generate_cache_key text)]) := by
  simp [analyze_sentiment_endpoint, h]

/-- Unfolding of the handler on a cache miss with a successful analysis. -/
theorem endpoint_miss_ok_eq {S : Type} (ollama_model : String) (cache : RedisCache CachePayload)
    (cl : RedisClient S) (chain : ChainOutcome) (t0 t1 ts : ℚ) (s : S) (text : String)
    (s2 : S) (tr : List StoreEvent) (r : SentimentResult)
    (hmiss : RedisCache.get cache cl s (generate_cache_key text) = (none, s2, tr))
    (hsvc : SentimentAnalysisService.analyze_sentiment chain = .ok r) :
    analyze_sentiment_endpoint ollama_model cache cl chain t0 t1 ts s text =
      (.ok { text := text, sentiment := r, cached := false,
             processing_time := t1 - t0, model_used := some ollama_model, timestamp := ts },
       (RedisCache.set cache cl s2 (generate_cache_key text) ⟨text, r, ollama_model⟩ none).2.1,
       [.cacheGet (generate_cache_key text), .backendCall text,
        .cacheSet (generate_cache_key text) ⟨text, r, ollama_model⟩]) := by
  simp [analyze_sentiment_endpoint, hmiss, hsvc]

/-- Unfolding of the handler on a cache miss with a failing analysis. -/
theorem endpoint_miss_err_eq {S : Type} (ollama_model : String) (cache : RedisCache CachePayload)
    (cl : RedisClient S) (chain : ChainOutcome) (t0 t1 ts : ℚ) (s : S) (text : String)
    (s2 : S) (tr : List StoreEvent) (e : ServiceError)
    (hmiss : RedisCache.get cache cl s (generate_cache_key text) = (none, s2, tr))
    (hsvc : SentimentAnalysisService.analyze_sentiment chain = .error e) :
    analyze_sentiment_endpoint ollama_model cache cl chain t0 t1 ts s text =
      (.error e, s2, [.cacheGet (generate_cache_key text), .backendCall text]) := by
  simp [analyze_sentiment_endpoint, hmiss, hsvc]

/-- C1: on a cache hit the handler returns an outcome with cached true whose
sentiment and model identifier come from the stored entry, and the backend is
never invoked: the request trace contains no backend call. -/
theorem C1_cache_hit_skips_backend {S : Type} (ollama_model : String)
    (cache : RedisCache CachePayload) (cl : RedisClient S) (chain : ChainOutcome)
    (t0 t1 ts : ℚ) (s : S) (text : String) (p : CachePayload) (s2 : S) (tr : List StoreEvent)
    (h : RedisCache.get cache cl s (generate_cache_key text) = (some p, s2, tr)) :
    analyze_sentiment_endpoint ollama_model cache cl chain t0 t1 ts s text =
      (.ok { text := p.text, sentiment := p.sentiment, cached := true,
             processing_time := t1 - t0, model_used := some p.model_used, timestamp := ts },
       s2, [.cacheGet (generate_cache_key text)]) ∧
    (analyze_sentiment_endpoint ollama_model cache cl chain t0 t1 ts s text).2.2.filter
      isBackendCallEvent = [] := by
  have he := endpoint_hit_eq ollama_model cache cl chain t0 t1 ts s text p s2 tr h
  exact ⟨he, by rw [he]; rfl⟩

/-- Witness for C1: the seeded store serves the request for hi from cache,
with the stored judgment and model, even though the backend would fail. -/
theorem C1_cache_hit_skips_backend_witness :
    analyze_sentiment_endpoint "llama3" fixtureCache (redisModel 0) .timedOut 0 1 5
        seededDB "hi" =
      (.ok { text := "hi", sentiment := fallbackResult, cached := true,
             processing_time := 1 - 0, model_used := some "llama3", timestamp := 5 },
       seededDB, [.cacheGet (generate_cache_key "hi")]) ∧
    (analyze_sentiment_endpoint "llama3" fixtureCache (redisModel 0) .timedOut 0 1 5
        seededDB "hi").2.2.filter isBackendCallEvent = [] :=
  C1_cache_hit_skips_backend "llama3" fixtureCache (redisModel 0) .timedOut 0 1 5
    seededDB "hi" fixturePayload seededDB [.getCall (generate_cache_key "hi")] (by rfl)

/-- C3: on a cache miss with a successful analysis the handler calls the
backend exactly once, writes exactly one cache entry holding the text, the
fresh judgment and the configured model, and returns cached false with the
fresh judgment, the configured model and the elapsed time between the two
clock readings of the request. -/
theorem C3_cache_miss_single_call_single_write {S : Type} (ollama_model : String)
    (cache : RedisCache CachePayload) (cl : RedisClient S) (chain : ChainOutcome)
    (t0 t1 ts : ℚ) (s : S) (text : String) (s2 : S) (tr : List StoreEvent) (r : SentimentResult)
    (hmiss : RedisCache.get cache cl s (generate_cache_key text) = (none, s2, tr))
    (hsvc : SentimentAnalysisService.analyze_sentiment chain = .ok r) :
    analyze_sentiment_endpoint ollama_model cache cl chain t0 t1 ts s text =
      (.ok { text := text, sentiment := r, cached := false,
             processing_time := t1 - t0, model_used := some ollama_model, timestamp := ts },
       (RedisCache.set cache cl s2 (generate_cache_key text) ⟨text, r, ollama_model⟩ none).2.1,
       [.cacheGet (generate_cache_key text), .backendCall text,
        .cacheSet (generate_cache_key text) ⟨text, r, ollama_model⟩]) ∧
    (analyze_sentiment_endpoint ollama_model cache cl chain t0 t1 ts s text).2.2.filter
      isBackendCallEvent = [.backendCall text] ∧
    (analyze_sentiment_endpoint ollama_model cache cl chain t0 t1 ts s text).2.2.filter
      isCacheSetEvent = [.cacheSet (generate_cache_key text) ⟨text, r, ollama_model⟩] := by
  have he := endpoint_miss_ok_eq ollama_model cache cl chain t0 t1 ts s text s2 tr r hmiss hsvc
  exact ⟨he, by rw [he]; rfl, by rw [he]; rfl⟩

/-- Witness for C3: an empty store and a fallback-producing backend reply. -/
theorem C3_cache_miss_single_call_single_write_witness :
    analyze_sentiment_endpoint "llama3" fixtureCache (redisModel 0) .outputParseFailure
        0 1 5 [] "hi" =
      (.ok { text := "hi", sentiment := fallbackResult, cached := false,
             processing_time := 1 - 0, model_used := some "llama3", timestamp := 5 },
       (RedisCache.set fixtureCache (redisModel 0) [] (generate_cache_key "hi")
         ⟨"hi", fallbackResult, "llama3"⟩ none).2.1,
       [.cacheGet (generate_cache_key "hi"), .backendCall "hi",
        .cacheSet (generate_cache_key "hi") ⟨"hi", fallbackResult, "llama3"⟩]) ∧
    (analyze_sentiment_endpoint "llama3" fixtureCache (redisModel 0) .outputParseFailure
        0 1 5 [] "hi").2.2.filter isBackendCallEvent = [.backendCall "hi"] ∧
    (analyze_sentiment_endpoint "llama3" fixtureCache (redisModel 0) .outputParseFailure
        0 1 5 [] "hi").2.2.filter isCacheSetEvent =
      [.cacheSet (generate_cache_key "hi") ⟨"hi", fallbackResult, "llama3"⟩] :=
  C3_cache_miss_single_call_single_write "llama3" fixtureCache (redisModel 0)
    .outputParseFailure 0 1 5 [] "hi" [] [.getCall (generate_cache_key "hi")]
    fallbackResult (by rfl) (by rfl)

/-- C4: when the backend fails on a cache miss, the handler performs no cache
write and re-raises the very same failure: a timeout stays a timeout and a
structured analysis failure stays a structured failure. -/
theorem C4_backend_failure_propagates_no_write {S : Type} (ollama_model : String)
    (cache : RedisCache CachePayload) (cl : RedisClient S) (chain : ChainOutcome)
    (t0 t1 ts : ℚ) (s : S) (text : String) (s2 : S) (tr : List StoreEvent) (e : ServiceError)
    (hmiss : RedisCache.get cache cl s (generate_cache_key text) = (none, s2, tr))
    (hsvc : SentimentAnalysisService.analyze_sentiment chain = .error e) :
    analyze_sentiment_endpoint ollama_model cache cl chain t0 t1 ts s text =
      (.error e, s2, [.cacheGet (generate_cache_key text), .backendCall text]) ∧
    (analyze_sentiment_endpoint ollama_model cache cl chain t0 t1 ts s text).2.2.filter
      isCacheSetEvent = [] := by
  have he := endpoint_miss_err_eq ollama_model cache cl chain t0 t1 ts s text s2 tr e hmiss hsvc
  exact ⟨he, by rw [he]; rfl⟩

/-- Witness for C4: a timed-out backend call on an empty store propagates as
the timeout failure and writes nothing. -/
theorem C4_backend_failure_propagates_no_write_witness :
    analyze_sentiment_endpoint "llama3" fixtureCache (redisModel 0) .timedOut 0 1 5 [] "hi" =
      (.error (.timeoutError "Sentiment analysis request timed out"), [],
       [.cacheGet (generate_cache_key "hi"), .backendCall "hi"]) ∧
    (analyze_sentiment_endpoint "llama3" fixtureCache (redisModel 0) .timedOut 0 1 5
        [] "hi").2.2.filter isCacheSetEvent = [] :=
  C4_backend_failure_propagates_no_write "llama3" fixtureCache (redisModel 0) .timedOut
    0 1 5 [] "hi" [] [.getCall (generate_cache_key "hi")]
    (.timeoutError "Sentiment analysis request timed out") (by rfl) (by rfl)

/-- Looking up a key just written to the functional store finds the written
value and expiry. -/
theorem dbGet_dbSet_self (db : RedisDB) (k v : String) (e : ℚ) :
    dbGet (dbSet db k v e) k = some (v, e) := by
  induction db with
  | nil => simp [dbGet, dbSet]
  | cons hd tl ih =>
    obtain ⟨k2, v2, e2⟩ := hd
    by_cases hk : k2 = k
    · simp [dbGet, dbSet, hk]
    · simp [dbGet, dbSet, hk, ih]

/-- A cache read against the functional store model leaves the store
unchanged. -/
theorem cacheGet_redisModel_state (c : RedisCache CachePayload) (n : ℚ) (db : RedisDB)
    (k : String) : (RedisCache.get c (redisModel n) db k).2.1 = db := by
  unfold RedisCache.get redisModel
  rcases hdb : dbGet db k with _ | ve
  · by_cases h : c.cache_enabled = true <;> simp [h, hdb]
  · obtain ⟨v, e⟩ := ve
    by_cases h : c.cache_enabled = true <;> simp [h, hdb]
    by_cases hn : n < e <;> simp [hn]
    by_cases hv : v = "" <;> simp [hv]
    rcases hl : c.loads v with er | pv <;> simp [hl]

/-- A cache write with the default ttl against the functional store model
stores the serialized payload with expiry now plus the configured ttl. -/
theorem cacheSet_redisModel (c : RedisCache CachePayload) (n : ℚ) (db : RedisDB)
    (k : String) (p : CachePayload) (henab : c.cache_enabled = true) :
    RedisCache.set c (redisModel n) db k p none =
      (true, dbSet db k (c.dumps p) (n + (c.ttl : ℚ)),
       [.setexCall k c.ttl (c.dumps p)]) := by
  simp [RedisCache.set, redisModel, henab, py_or_int]

/-- C6 counterexample: all hypotheses of the claim hold for the text hi
against the seeded store at instants 0 and 2 with expiry 10 (the cache is
operational, nothing expires in between, and both sequential calls succeed
with the same sentiment payload), yet the first call returns cached true,
not cached false: the claim omits the hypothesis that the text is not
already cached. -/
theorem C6_counterexample_first_call_already_cached :
    (analyze_sentiment_endpoint "llama3" fixtureCache (redisModel 0) .outputParseFailure
        0 1 1 seededDB "hi").1 =
      .ok { text := "hi", sentiment := fallbackResult, cached := true,
            processing_time := 1 - 0, model_used := some "llama3", timestamp := 1 } ∧
    (analyze_sentiment_endpoint "llama3" fixtureCache (redisModel 2) .outputParseFailure
        2 3 3
        (analyze_sentiment_endpoint "llama3" fixtureCache (redisModel 0)
          .outputParseFailure 0 1 1 seededDB "hi").2.1 "hi").1 =
      .ok { text := "hi", sentiment := fallbackResult, cached := true,
            processing_time := 3 - 2, model_used := some "llama3", timestamp := 3 } := by
  constructor <;> rfl

/-- C6, amended: the claim fails when the text is already cached (see the
counterexample), so the hypothesis that the first lookup misses is added.
Then two sequential analyze calls against the operational store, with the
first analysis succeeding, the json codec round-tripping the fresh entry and
no expiry in between, return the same sentiment payload both times, the
first with cached false and the second with cached true. -/
theorem C6_amended_analyze_twice_idempotent (c : RedisCache CachePayload) (db : RedisDB)
    (text m : String) (chain1 chain2 : ChainOutcome) (r : SentimentResult)
    (now1 now2 t0 t1 ts1 t2 t3 ts2 : ℚ)
    (henab : c.cache_enabled = true)
    (hmiss : (RedisCache.get c (redisModel now1) db (generate_cache_key text)).1 = none)
    (hsvc : SentimentAnalysisService.analyze_sentiment chain1 = .ok r)
    (hrt : c.loads (c.dumps ⟨text, r, m⟩) = .ok ⟨text, r, m⟩)
    (hne : c.dumps ⟨text, r, m⟩ ≠ "")
    (hexp : now2 < now1 + (c.ttl : ℚ)) :
    analyze_sentiment_endpoint m c (redisModel now1) chain1 t0 t1 ts1 db text =
      (.ok { text := text, sentiment := r, cached := false, processing_time := t1 - t0,
             model_used := some m, timestamp := ts1 },
       dbSet db (generate_cache_key text) (c.dumps ⟨text, r, m⟩) (now1 + (c.ttl : ℚ)),
       [.cacheGet (generate_cache_key text), .backendCall text,
        .cacheSet (generate_cache_key text) ⟨text, r, m⟩]) ∧
    (analyze_sentiment_endpoint m c (redisModel now2) chain2 t2 t3 ts2
        (dbSet db (generate_cache_key text) (c.dumps ⟨text, r, m⟩) (now1 + (c.ttl : ℚ)))
        text).1 =
      .ok { text := text, sentiment := r, cached := true, processing_time := t3 - t2,
            model_used := some m, timestamp := ts2 } := by
  have hstate := cacheGet_redisModel_state c now1 db (generate_cache_key text)
  rcases hget : RedisCache.get c (redisModel now1) db (generate_cache_key text)
    with ⟨res, s2, tr⟩
  rw [hget] at hmiss hstate
  simp only at hmiss hstate
  subst hmiss
  rw [hstate] at hget
  constructor
  · have h1 := endpoint_miss_ok_eq m c (redisModel now1) chain1 t0 t1 ts1 db text db tr r
      hget hsvc
    rw [cacheSet_redisModel c now1 db (generate_cache_key text) ⟨text, r, m⟩ henab] at h1
    exact h1
  · have hget2 : RedisCache.get c (redisModel now2)
        (dbSet db (generate_cache_key text) (c.dumps ⟨text, r, m⟩) (now1 + (c.ttl : ℚ)))
        (generate_cache_key text) =
        (some ⟨text, r, m⟩,
         dbSet db (generate_cache_key text) (c.dumps ⟨text, r, m⟩) (now1 + (c.ttl : ℚ)),
         [.getCall (generate_cache_key text)]) := by
      simp [RedisCache.get, redisModel, henab, dbGet_dbSet_self, hexp, hne, hrt]
    rw [endpoint_hit_eq m c (redisModel now2) chain2 t2 t3 ts2 _ text ⟨text, r, m⟩ _ _ hget2]

/-- Witness for the amended C6 at concrete inputs: empty store, fallback
first analysis, instants 0 and 1 with ttl 3600. -/
theorem C6_amended_analyze_twice_idempotent_witness :
    analyze_sentiment_endpoint "llama3" fixtureCache (redisModel 0) .outputParseFailure
        0 1 1 [] "hi" =
      (.ok { text := "hi", sentiment := fallbackResult, cached := false,
             processing_time := 1 - 0, model_used := some "llama3", timestamp := 1 },
       dbSet [] (generate_cache_key "hi")
         (fixtureCache.dumps ⟨"hi", fallbackResult, "llama3"⟩)
         (0 + (fixtureCache.ttl : ℚ)),
       [.cacheGet (generate_cache_key "hi"), .backendCall "hi",
        .cacheSet (generate_cache_key "hi") ⟨"hi", fallbackResult, "llama3"⟩]) ∧
    (analyze_sentiment_endpoint "llama3" fixtureCache (redisModel 1) .timedOut 2 3 3
        (dbSet [] (generate_cache_key "hi")
          (fixtureCache.dumps ⟨"hi", fallbackResult, "llama3"⟩)
          (0 + (fixtureCache.ttl : ℚ))) "hi").1 =
      .ok { text := "hi", sentiment := fallbackResult, cached := true,
            processing_time := 3 - 2, model_used := some "llama3", timestamp := 3 } :=
  C6_amended_analyze_twice_idempotent fixtureCache [] "hi" "llama3" .outputParseFailure
    .timedOut fallbackResult 0 1 0 1 1 2 3 3 (by rfl) (by rfl) (by rfl) (by rfl)
    (by decide) (by norm_num [fixtureCache])

end STA
